import Mathlib

/-!
Shallow embedding of `src/main.rs` of the chat application: a tokio chat
server (`run_server`, lines 48-105) relaying lines between TCP clients
through a `tokio::sync::broadcast` channel of requested capacity 100
(tokio rounds the buffer up to 128 slots), and a client (`run_client`,
lines 107-196) with reader / writer / stdin activities.

Strings are modelled as `List Char`; Rust `str::trim` is modelled by
`Chat.trim` below using the Unicode `White_Space` predicate of
`char::is_whitespace`.  Socket writes are modelled as atomic: a
`write_all` either appends its whole byte string to the peer-visible
trace or fails.
-/

namespace Chat

/-- Unicode `White_Space` test, mirroring Rust `char::is_whitespace`. -/
def isWS (c : Char) : Bool :=
  c.toNat = 0x09 || c.toNat = 0x0A || c.toNat = 0x0B || c.toNat = 0x0C ||
  c.toNat = 0x0D || c.toNat = 0x20 || c.toNat = 0x85 || c.toNat = 0xA0 ||
  c.toNat = 0x1680 || (0x2000 ≤ c.toNat && c.toNat ≤ 0x200A) ||
  c.toNat = 0x2028 || c.toNat = 0x2029 || c.toNat = 0x202F ||
  c.toNat = 0x205F || c.toNat = 0x3000

/-- Rust `str::trim`: remove the leading and the trailing whitespace run.
Removing the trailing run first and then the leading run yields the same
substring as Rust's order; `List.rdropWhile` drops from the tail. -/
def trim (s : List Char) : List Char :=
  (s.rdropWhile isWS).dropWhile isWS

/-- Model of `BufRead`/`AsyncBufRead` `read_line` on a byte stream: the
returned line is everything up to and including the first `'\n'` (or all
remaining bytes when the stream ends without one), paired with the unread
rest.  The returned line is empty iff the stream is at EOF, matching
`read_line` returning `Ok(0)`. -/
def readLine : List Char → List Char × List Char
  | [] => ([], [])
  | c :: rest =>
    if c = '\n' then ([c], rest)
    else
      let p := readLine rest
      (c :: p.1, p.2)

/-- A hub message as sent on the broadcast channel:
`tx.send((formatted_message.clone(), username.clone()))` (line 87). -/
structure Msg where
  text : List Char
  sender : List Char
deriving DecidableEq

/-- Requested capacity of the broadcast hub: the literal argument of
`broadcast::channel(100)` (line 52). -/
def hubRequestedCapacity : Nat := 100

/-- Effective buffer size of the broadcast hub.  tokio's broadcast
channel rounds the requested capacity up to the next power of two
(`capacity.next_power_of_two()`; its docs note the actual capacity may
exceed the requested one), so `broadcast::channel(100)` retains 128
messages and a receiver observes `Lagged` only when it is more than 128
messages behind the newest published message. -/
def hubCapacity : Nat := 128

set_option maxRecDepth 2000 in
/-- The effective buffer size is exactly tokio's power-of-two rounding
of the requested capacity. -/
theorem hubCapacity_eq_rounded :
    hubCapacity = Nat.nextPowerOfTwo hubRequestedCapacity := by
  simp [hubRequestedCapacity, hubCapacity, Nat.nextPowerOfTwo,
    Nat.nextPowerOfTwo.go]

/-- A completed `rx.recv()` on a `tokio::sync::broadcast::Receiver`:
either the next message, or `Err(RecvError::Lagged(missed))` when the
receiver fell behind by more than the channel capacity. -/
inductive RecvDone
  | ok (m : Msg)
  | lagged (missed : Nat)
deriving DecidableEq

/-- Semantics of one `rx.recv()` call against the hub, modelled from
tokio's documented `broadcast` behaviour (the channel implementation is
an external dependency, not part of this repository): `stream` is the
full sequence of messages published so far and `cursor` the index of
the next message this subscriber would read.  `none` means recv would
block (nothing new).  The ring buffer retains the newest `hubCapacity`
(= 128, after rounding) messages; when the subscriber is more than
`hubCapacity` messages behind the newest message, the oldest retained
message has index `stream.length - hubCapacity`: recv returns `Lagged`
with the number of skipped messages and the cursor jumps forward to the
oldest retained message. -/
def hubRecv (stream : List Msg) (cursor : Nat) : Option (RecvDone × Nat) :=
  if h : cursor < stream.length then
    if cursor + hubCapacity < stream.length then
      some (.lagged (stream.length - hubCapacity - cursor),
            stream.length - hubCapacity)
    else
      some (.ok (stream.get ⟨cursor, h⟩), cursor + 1)
  else none

/-- What the hub-delivery branch of the session loop does with one
completed recv (lines 91-98). -/
inductive SessionAct
  | panic
  | write (bytes : List Char)
  | drop
  | halt
deriving DecidableEq

/-- Hub-delivery branch of the session `select!` (lines 91-98):
`let (msg, sender) = result.unwrap();` panics on `Err(Lagged(_))`;
otherwise the message text is written verbatim iff `sender != username`
(a failed write breaks out of the loop), and discarded when the sender
matches. -/
def recvBranch (username : List Char) (r : RecvDone) (writeOk : Bool) :
    SessionAct :=
  match r with
  | .lagged _ => .panic
  | .ok m =>
    if m.sender ≠ username then
      if writeOk then .write m.text else .halt
    else .drop

/-- Result of one `read_line` as seen by the caller. -/
inductive ReadRes
  | err
  | ok (line : List Char)
deriving DecidableEq

/-- Inbound branch of the session `select!` (lines 79-90).
`result.unwrap_or(0) == 0` breaks on a read error and on EOF (empty
line); then the line is trimmed, and only a non-empty trimmed message is
formatted as `"{}: {}\n"` and published tagged with the username.
`none` models `break`; `some none` continue without publish; `some (some m)`
continue after publishing `m`. -/
def inboundBranch (username : List Char) (r : ReadRes) :
    Option (Option Msg) :=
  match r with
  | .err => none
  | .ok line =>
    if line = [] then none
    else
      let message := trim line
      if message = [] then some none
      else some (some ⟨username ++ ':' :: ' ' :: (message ++ ['\n']), username⟩)

/-- The welcome line `format!("Welcome to the chat, {}!\n", username)`
(line 72). -/
def welcomeText (username : List Char) : List Char :=
  ("Welcome to the chat, ".data) ++ username ++ ("!\n".data)

/-- Outcome of the session handshake (lines 62-75): the first `read_line`
is `.unwrap()`ed, so an I/O error panics the task; `Ok(0)` (EOF) is never
checked, the line stays empty and trims to an empty username; the welcome
is then written, and a failed welcome write returns from the task. -/
inductive HandshakeRes
  | panicked
  | closed
  | active (username welcome : List Char)
deriving DecidableEq

/-- The handshake (lines 62-75) as a function of the first read result
and of whether the welcome `write_all` succeeds. -/
def handshake (firstRead : ReadRes) (welcomeWriteOk : Bool) : HandshakeRes :=
  match firstRead with
  | .err => .panicked
  | .ok line =>
    let username := trim line
    if welcomeWriteOk then .active username (welcomeText username)
    else .closed

/-- One firing of the session `tokio::select!` (lines 78-99): either the
inbound `read_line` completes (the next line is taken from the session's
remaining input stream; reads from a stream do not error), or `rx.recv()`
completes with `r` and the subsequent `write_all`, if reached, succeeds
iff `writeOk`. -/
inductive LoopEvent
  | inbound
  | deliver (r : RecvDone) (writeOk : Bool)

/-- The session main loop (lines 77-100) run over a schedule of select
outcomes.  `input` is the unread inbound byte stream.  Returns the byte
strings written to this client's socket and the messages published to
the hub, each in order. -/
def sessionLoop (username : List Char) :
    List Char → List LoopEvent → List (List Char) × List Msg
  | _, [] => ([], [])
  | input, .inbound :: evs =>
    let r := readLine input
    match inboundBranch username (.ok r.1) with
    | none => ([], [])
    | some none => sessionLoop username r.2 evs
    | some (some m) =>
      let p := sessionLoop username r.2 evs
      (p.1, m :: p.2)
  | input, .deliver r wOk :: evs =>
    match recvBranch username r wOk with
    | .panic => ([], [])
    | .halt => ([], [])
    | .drop => sessionLoop username input evs
    | .write bytes =>
      let p := sessionLoop username input evs
      (bytes :: p.1, p.2)

/-- A whole session handler (lines 61-103) over its inbound byte stream:
handshake (first line read, trimmed into the username, welcome written),
then the main loop.  Returns the socket writes and the hub publishes of
the session, in order. -/
def sessionRun (input : List Char) (welcomeOk : Bool)
    (events : List LoopEvent) : List (List Char) × List Msg :=
  let r := readLine input
  let username := trim r.1
  if welcomeOk then
    let p := sessionLoop username r.2 events
    (welcomeText username :: p.1, p.2)
  else ([], [])

/-- Substring helper: the haystack begins with `pat`. -/
def leadsWith : List Char → List Char → Bool
  | [], _ => true
  | _ :: _, [] => false
  | a :: as, b :: bs => a == b && leadsWith as bs

/-- Rust `str::contains` with a string pattern: substring search.  The
empty pattern matches everywhere, as in Rust. -/
def containsSub (pat : List Char) : List Char → Bool
  | [] => leadsWith pat []
  | c :: rest => leadsWith pat (c :: rest) || containsSub pat rest

/-- How the client reader activity renders one received line. -/
inductive Rendered
  | highlight (msg : List Char)
  | plain (msg : List Char)
  | noRender
deriving DecidableEq

/-- Client reader activity, one received line (lines 128-136): the line
is trimmed; a trimmed-empty line is not printed at all; otherwise it is
printed highlighted iff it contains the substring `"@" + username`
(`message.contains(&format!("@{}", username_clone))`). -/
def renderLine (ownUsername line : List Char) : Rendered :=
  let message := trim line
  if message = [] then .noRender
  else if containsSub ('@' :: ownUsername) message then .highlight message
  else .plain message

/-- Client stdin activity, one input line (lines 161-178): trim, drop the
line if the trimmed text is empty, otherwise enqueue the trimmed text
toward the writer. -/
def stdinStep (inputLine : List Char) : Option (List Char) :=
  let message := trim inputLine
  if message = [] then none else some message

/-- Client writer activity, one dequeued message (lines 146-152): writes
`format!("{}\n", message)` to the socket. -/
def writerBytes (message : List Char) : List Char := message ++ ['\n']

/-- One `listener.accept()` outcome in the server accept loop. -/
inductive AcceptRes
  | ok (addr : Nat)
  | err

/-- What the accept loop has done over a prefix of accept outcomes. -/
structure ServerRun where
  spawned : List Nat
  acceptError : Bool
deriving DecidableEq

/-- The server accept loop (lines 54-104) over a prefix of accept
outcomes.  `handlerPanics` says which spawned session handlers would
eventually panic; each `tokio::spawn` JoinHandle is dropped, so the loop
never consults it and a handler crash cannot reach the loop.
`listener.accept().await?` propagates an accept error out of
`run_server`, terminating the whole loop at once. -/
def acceptLoopH (handlerPanics : Nat → Bool) : List AcceptRes → ServerRun
  | [] => ⟨[], false⟩
  | .err :: _ => ⟨[], true⟩
  | .ok a :: rest =>
    let r := acceptLoopH handlerPanics rest
    ⟨a :: r.spawned, r.acceptError⟩

/-! Basic lemmas about `trim`. -/

theorem isWS_newline : isWS '\n' = true := by decide

/-- Appending a newline does not change the trimmed text. -/
theorem trim_append_newline (L : List Char) : trim (L ++ ['\n']) = trim L := by
  unfold trim
  rw [List.rdropWhile_concat_pos]
  decide

/-- Trimming is idempotent: the trimmed text ends in no whitespace. -/
theorem rdropWhile_trim (s : List Char) :
    (trim s).rdropWhile isWS = trim s := by
  rw [List.rdropWhile_eq_self_iff]
  intro hl
  have hsuf : trim s <:+ s.rdropWhile isWS := List.dropWhile_suffix isWS
  obtain ⟨w, hw⟩ := hsuf
  have ht : s.rdropWhile isWS ≠ [] := by
    intro hnil
    rw [hnil] at hw
    exact hl (List.append_eq_nil.mp hw).2
  have h1 : (s.rdropWhile isWS).getLast ht = (trim s).getLast hl := by
    have h2 : (w ++ trim s).getLast (by simp [hw, ht]) = (trim s).getLast hl :=
      List.getLast_append' w (trim s) hl
    calc (s.rdropWhile isWS).getLast ht
        = (w ++ trim s).getLast (by simp [hw, ht]) :=
          List.getLast_congr _ _ hw.symm
      _ = (trim s).getLast hl := h2
  rw [← h1]
  exact List.rdropWhile_last_not isWS s ht

/-- Trimming is idempotent. -/
theorem trim_idem (s : List Char) : trim (trim s) = trim s := by
  conv_lhs => rw [trim, rdropWhile_trim]
  rw [trim, List.dropWhile_idempotent]

/-- With no `'\n'` inside `L`, `read_line` on a stream starting with the
frame `L ++ "\n"` returns exactly that frame and leaves the rest. -/
theorem readLine_frame (L rest : List Char) (h : '\n' ∉ L) :
    readLine (L ++ '\n' :: rest) = (L ++ ['\n'], rest) := by
  induction L with
  | nil => simp [readLine]
  | cons c cs ih =>
    have hc : c ≠ '\n' := fun hh => h (hh ▸ List.mem_cons_self c cs)
    have hcs : '\n' ∉ cs := fun hh => h (List.mem_cons_of_mem c hh)
    simp [readLine, hc, ih hcs]

/-- Every message the inbound branch publishes is tagged with the
publishing session's username as its sender. -/
theorem publish_sender_eq (u line : List Char) (m : Msg)
    (h : inboundBranch u (.ok line) = some (some m)) : m.sender = u := by
  unfold inboundBranch at h
  by_cases hl : line = []
  · simp [hl] at h
  · by_cases hm : trim line = []
    · simp [hl, hm] at h
    · simp [hl, hm] at h
      rw [← h]

/-- Claim C1, counterexample at the claim's own threshold: a subscriber
whose cursor is still at 0 after 101 publishes is more than 100 messages
behind the newest message, yet `rx.recv()` returns message 0 in order
and advances the cursor to 1 — nothing is skipped or lost, because the
rounded ring buffer retains 128 messages, not 100. -/
theorem c1_counterexample :
    hubRecv (List.replicate 101 ⟨['x'], ['u']⟩) 0 =
      some (.ok ⟨['x'], ['u']⟩, 1) := by
  decide

/-- Claim C1 as amended: the effective hub buffer is 128 messages
(tokio rounds `broadcast::channel(100)` up to the next power of two).
A subscriber at most 128 messages behind still receives its oldest
unseen message in order, with nothing skipped; a subscriber more than
128 messages behind gets `Err(Lagged)` with its cursor skipped forward
to the oldest retained message (the skipped messages lost for that
subscriber only, the shared stream and other cursors untouched) — but
the session's hub-delivery branch applies `result.unwrap()` to that
result and panics, so the lagging session crashes instead of continuing
from the skipped-to message. -/
theorem c1_lag_rule (stream : List Msg) (cursor : Nat) (u : List Char)
    (wOk : Bool) :
    (∀ h : cursor < stream.length, stream.length ≤ cursor + 128 →
      hubRecv stream cursor =
        some (.ok (stream.get ⟨cursor, h⟩), cursor + 1)) ∧
    (cursor + 128 < stream.length →
      hubRecv stream cursor =
        some (.lagged (stream.length - 128 - cursor), stream.length - 128) ∧
      recvBranch u (.lagged (stream.length - 128 - cursor)) wOk =
        SessionAct.panic) := by
  constructor
  · intro h hle
    unfold hubRecv
    rw [dif_pos h, if_neg (by unfold hubCapacity; omega)]
  · intro hlag
    refine ⟨?_, rfl⟩
    unfold hubRecv hubCapacity
    rw [dif_pos (by omega), if_pos (by omega)]

set_option maxRecDepth 4000 in
/-- Claim C1 witness at the boundary: with 129 messages published, a
subscriber at cursor 0 is 129 > 128 behind and its recv lags, skipping
to index 1 with one message lost, and the session branch panics on it;
with 128 published it still receives message 0 normally. -/
theorem c1_lag_rule_witness :
    hubRecv (List.replicate 129 ⟨['x'], ['u']⟩) 0 =
      some (.lagged 1, 1) ∧
    recvBranch ['v'] (.lagged 1) true = SessionAct.panic ∧
    hubRecv (List.replicate 128 ⟨['x'], ['u']⟩) 0 =
      some (.ok ⟨['x'], ['u']⟩, 1) := by
  have h1 := (c1_lag_rule (List.replicate 129 ⟨['x'], ['u']⟩) 0 ['v'] true).2
    (by decide)
  have h2 := (c1_lag_rule (List.replicate 128 ⟨['x'], ['u']⟩) 0 ['v'] true).1
    (by decide) (by decide)
  exact ⟨h1.1, h1.2, h2⟩

/-- Claim C2, counterexample: EOF on the first read (`read_line`
returning `Ok(0)`, an empty line) does not terminate the session
silently; the unchecked zero-byte read yields the empty username and the
welcome `Welcome to the chat, !\n` is still written. -/
theorem c2_counterexample :
    handshake (.ok []) true = .active [] (welcomeText []) ∧
    handshake (.ok []) true ≠ .closed ∧
    handshake (.ok []) true ≠ .panicked := by
  decide

/-- Claim C2 as amended: an I/O error on the first read panics the
session task (nothing is written or published); EOF is treated as an
empty username line and the welcome is still sent; a failed welcome
write terminates the session silently, and a session whose welcome
write fails never writes nor publishes anything. -/
theorem c2_handshake_behaviour :
    (∀ w, handshake .err w = .panicked) ∧
    (∀ l, handshake (.ok l) false = .closed) ∧
    handshake (.ok []) true = .active [] (welcomeText []) ∧
    (∀ input evs, sessionRun input false evs = ([], [])) := by
  refine ⟨fun w => rfl, fun l => rfl, rfl, fun input evs => rfl⟩

/-- Claim C3, counterexample: after an accept error the loop does not
continue; a connection arriving next is never accepted and the server
run ends with the propagated accept error. -/
theorem c3_counterexample :
    (acceptLoopH (fun _ => true) [.err, .ok 7]).spawned = [] ∧
    (acceptLoopH (fun _ => true) [.err, .ok 7]).acceptError = true := by
  decide

/-- Claim C3 as amended: the accept loop is fully independent of the
fates of the spawned handlers (a handler panic cannot reach it), but an
accept error is propagated by `?` and terminates the whole server loop
immediately instead of being logged and skipped. -/
theorem c3_accept_loop_behaviour :
    (∀ (h₁ h₂ : Nat → Bool) evs, acceptLoopH h₁ evs = acceptLoopH h₂ evs) ∧
    (∀ (h : Nat → Bool) rest, acceptLoopH h (.err :: rest) = ⟨[], true⟩) ∧
    (∀ (h : Nat → Bool) a rest, acceptLoopH h (.ok a :: rest) =
      ⟨a :: (acceptLoopH h rest).spawned, (acceptLoopH h rest).acceptError⟩) := by
  refine ⟨fun h₁ h₂ evs => ?_, fun h rest => rfl, fun h a rest => rfl⟩
  induction evs with
  | nil => rfl
  | cons e rest ih => cases e <;> simp [acceptLoopH, ih]

/-- Claim C4: a delivered message whose sender equals the session's own
username is discarded, never written to the socket; and every message a
session publishes is tagged with that session's username as sender, so
no session receives the rebroadcast of a line it itself sent. -/
theorem c4_self_echo_suppression :
    (∀ (u : List Char) (m : Msg) (wOk : Bool),
      m.sender = u → recvBranch u (.ok m) wOk = .drop) ∧
    (∀ (u line : List Char) (m : Msg),
      inboundBranch u (.ok line) = some (some m) → m.sender = u) := by
  constructor
  · intro u m wOk h
    simp [recvBranch, h]
  · exact publish_sender_eq

/-- Claim C4 witness at a concrete input. -/
theorem c4_self_echo_suppression_witness :
    recvBranch ['a'] (.ok ⟨['a', ':', ' ', 'h', 'i', '\n'], ['a']⟩) true =
      .drop :=
  c4_self_echo_suppression.1 ['a'] ⟨['a', ':', ' ', 'h', 'i', '\n'], ['a']⟩
    true rfl

/-- Claim C5: for a client whose first frame is `L\n`, the server's write
trace to that client starts with exactly `Welcome to the chat, <u>!\n`
where `u` is `L` with surrounding whitespace trimmed, followed by (hence
before) any broadcast writes of the main loop; and if the welcome write
fails, nothing is ever written or published. -/
theorem c5_welcome_law (L rest : List Char) (evs : List LoopEvent)
    (h : '\n' ∉ L) :
    (sessionRun (L ++ '\n' :: rest) true evs).1 =
      welcomeText (trim L) :: (sessionLoop (trim L) rest evs).1 ∧
    sessionRun (L ++ '\n' :: rest) false evs = ([], []) := by
  constructor
  · unfold sessionRun
    rw [readLine_frame L rest h]
    simp [trim_append_newline]
  · rfl

/-- Claim C5 witness at a concrete input. -/
theorem c5_welcome_law_witness :
    (sessionRun (['h', 'i'] ++ '\n' :: []) true []).1 =
      welcomeText (trim ['h', 'i']) :: (sessionLoop (trim ['h', 'i']) [] []).1 ∧
    sessionRun (['h', 'i'] ++ '\n' :: []) false [] = ([], []) :=
  c5_welcome_law ['h', 'i'] [] [] (by decide)

/-- Claim C6: an inbound line that trims to empty is dropped: the
inbound branch publishes nothing and the session continues its loop
exactly as if the event had not happened. -/
theorem c6_blank_line_drop (u B rest : List Char) (evs : List LoopEvent)
    (hB : trim B = []) (hn : '\n' ∉ B) :
    inboundBranch u (.ok (B ++ ['\n'])) = some none ∧
    sessionLoop u (B ++ '\n' :: rest) (.inbound :: evs) =
      sessionLoop u rest evs := by
  have ht : trim (B ++ ['\n']) = [] := by rw [trim_append_newline, hB]
  have hbr : inboundBranch u (.ok (B ++ ['\n'])) = some none := by
    unfold inboundBranch
    simp [ht]
  refine ⟨hbr, ?_⟩
  simp only [sessionLoop]
  rw [readLine_frame B rest hn]
  simp [hbr]

/-- Claim C6 witness at a concrete input. -/
theorem c6_blank_line_drop_witness :
    inboundBranch ['u'] (.ok ([' '] ++ ['\n'])) = some none ∧
    sessionLoop ['u'] ([' '] ++ '\n' :: []) (.inbound :: []) =
      sessionLoop ['u'] [] [] :=
  c6_blank_line_drop ['u'] [' '] [] [] (by decide) (by decide)

/-- Claim C7, counterexample: the empty line `L = ""` contains no `'\n'`
and no leading or trailing whitespace, yet a session with username `u`
that receives the frame `"\n"` publishes nothing at all, not the string
`"u: \n"` the claim requires. -/
theorem c7_counterexample :
    inboundBranch ['u'] (.ok ['\n']) = some none ∧
    inboundBranch ['u'] (.ok ['\n']) ≠
      some (some ⟨['u', ':', ' ', '\n'], ['u']⟩) := by
  decide

/-- Claim C7 as amended to non-empty lines: for any non-empty `L` with
no `'\n'` and no leading or trailing whitespace (`trim L = L`), the
frame `L\n` is read as one line, the session publishes exactly
`u: L\n` tagged with sender `u`, and a subscriber session with any other
username `v` writes those bytes verbatim to its socket. -/
theorem c7_framing_round_trip (u v L rest : List Char)
    (hne : L ≠ []) (hn : '\n' ∉ L) (htr : trim L = L) (hv : v ≠ u) :
    readLine (L ++ '\n' :: rest) = (L ++ ['\n'], rest) ∧
    inboundBranch u (.ok (L ++ ['\n'])) =
      some (some ⟨u ++ ':' :: ' ' :: (L ++ ['\n']), u⟩) ∧
    recvBranch v (.ok ⟨u ++ ':' :: ' ' :: (L ++ ['\n']), u⟩) true =
      .write (u ++ ':' :: ' ' :: (L ++ ['\n'])) := by
  have ht : trim (L ++ ['\n']) = L := by rw [trim_append_newline, htr]
  refine ⟨readLine_frame L rest hn, ?_, ?_⟩
  · unfold inboundBranch
    simp [ht, hne]
  · have huv : u ≠ v := fun hh => hv hh.symm
    simp [recvBranch, huv]

/-- Claim C7 witness at a concrete input. -/
theorem c7_framing_round_trip_witness :
    readLine (['h', 'i'] ++ '\n' :: []) = (['h', 'i'] ++ ['\n'], []) ∧
    inboundBranch ['a'] (.ok (['h', 'i'] ++ ['\n'])) =
      some (some ⟨['a'] ++ ':' :: ' ' :: (['h', 'i'] ++ ['\n']), ['a']⟩) ∧
    recvBranch ['b']
      (.ok ⟨['a'] ++ ':' :: ' ' :: (['h', 'i'] ++ ['\n']), ['a']⟩) true =
      .write (['a'] ++ ':' :: ' ' :: (['h', 'i'] ++ ['\n'])) :=
  c7_framing_round_trip ['a'] ['b'] ['h', 'i'] []
    (by decide) (by decide) (by decide) (by decide)

/-- Claim C8: a received line is rendered with the highlight variant iff
its trimmed text is non-empty and contains the substring
`"@" ++ own-username` (plain substring containment); a line whose
trimmed text is empty is not rendered at all. -/
theorem c8_mention_highlight (u line : List Char) :
    (renderLine u line = .highlight (trim line) ↔
      trim line ≠ [] ∧ containsSub ('@' :: u) (trim line) = true) ∧
    (trim line = [] → renderLine u line = .noRender) := by
  constructor
  · constructor
    · intro h
      unfold renderLine at h
      by_cases h1 : trim line = []
      · simp [h1] at h
      · by_cases h2 : containsSub ('@' :: u) (trim line) = true
        · exact ⟨h1, h2⟩
        · simp [h1, h2] at h
    · rintro ⟨h1, h2⟩
      unfold renderLine
      simp [h1, h2]
  · intro h
    unfold renderLine
    simp [h]

/-- Claim C8 witness: the substring match is plain containment, so for
own username `alice` the received line `bob: hey @alicent` is rendered
highlighted. -/
theorem c8_mention_highlight_witness :
    renderLine ("alice".data) ("bob: hey @alicent\n".data) =
      .highlight (trim ("bob: hey @alicent\n".data)) :=
  (c8_mention_highlight ("alice".data) ("bob: hey @alicent\n".data)).1.mpr
    ⟨by decide, by decide⟩

/-- Claim C9: self-echo suppression is keyed on the username string, not
on session identity: a message published by any session with username
`u` is discarded by every session with username `u`, including a
distinct concurrently connected session with the same name, so
same-named clients never receive each other's messages. -/
theorem c9_same_username_mutual_suppression (u line : List Char) (m : Msg)
    (h : inboundBranch u (.ok line) = some (some m)) (wOk : Bool) :
    recvBranch u (.ok m) wOk = .drop := by
  have hs : m.sender = u := publish_sender_eq u line m h
  simp [recvBranch, hs]

/-- Claim C9 witness at a concrete input. -/
theorem c9_same_username_mutual_suppression_witness :
    recvBranch ['a'] (.ok ⟨['a', ':', ' ', 'h', '\n'], ['a']⟩) true =
      .drop :=
  c9_same_username_mutual_suppression ['a'] ['h', '\n']
    ⟨['a', ':', ' ', 'h', '\n'], ['a']⟩ (by decide) true

/-- Claim C10: if a stdin line is enqueued as `m`, the bytes the writer
sends for it are exactly the trimmed line followed by one newline, `m`
is non-empty and has no leading or trailing whitespace; and a stdin
line that trims to empty is never enqueued, so it causes no socket
write. -/
theorem c10_client_sends_trimmed (line m : List Char) :
    (stdinStep line = some m →
      writerBytes m = trim line ++ ['\n'] ∧ m ≠ [] ∧ trim m = m) ∧
    (trim line = [] → stdinStep line = none) := by
  constructor
  · intro h
    unfold stdinStep at h
    by_cases ht : trim line = []
    · simp [ht] at h
    · simp [ht] at h
      rw [← h]
      exact ⟨rfl, ht, trim_idem line⟩
  · intro h
    unfold stdinStep
    simp [h]

/-- Claim C10 witness at a concrete input. -/
theorem c10_client_sends_trimmed_witness :
    writerBytes ['h', 'i'] = trim [' ', 'h', 'i', ' '] ++ ['\n'] ∧
    ['h', 'i'] ≠ ([] : List Char) ∧ trim ['h', 'i'] = ['h', 'i'] :=
  (c10_client_sends_trimmed [' ', 'h', 'i', ' '] ['h', 'i']).1 (by decide)

end Chat
